import Mathlib

set_option maxRecDepth 8192

/-!
Verification of the AltmansExam persistence component and its form-to-record
adapter, shallowly embedded from `src/database/database_manager.py` and
`src/ui/main_window.py`.

The persistence layer is modelled with explicit state passing: a SQLite value
is `SqlValue`, a table row is the list of bound values in column order, the
store is an association list of table names to rows, and the file system holds
an optional store at the bundled-template path and at the target path.
Python exceptions are modelled with `Except PyError`, environmental failures
(I/O errors, engine rejections) with explicit boolean oracles, and `logger`
calls with an accumulated `Log`.
-/

namespace AltmansExam

/-- A log produced by `logger.error` / `logger.info` calls. -/
abbrev Log := List String

/-- Python exception values relevant to this code: `ValueError` raised by the
bind-count check, and any other `Exception`. -/
inductive PyError where
  | valueError (msg : String)
  | exception (msg : String)
deriving Repr, DecidableEq

/-- A value bound into a SQL statement: the code binds `str` and `int`
(`List[Union[str, int]]`). -/
inductive SqlValue where
  | s (v : String)
  | i (v : Int)
deriving Repr, DecidableEq

/-- A stored row: the bound values in the column order of the INSERT
statement. -/
abbrev Row := List SqlValue

/-- The `altman_table` contents: rows in insertion order. -/
abbrev Table := List Row

/-- The SQL text of the prepared INSERT of `insert_into_altman_table`
(the `sql` local in `database_manager.py`). -/
def insertSql : String := "INSERT INTO altman_table(
        altman_date,
        altman_time,
        altmans_sleep,
        altmans_speech,
        altmans_activity,
        altmans_cheer,
        altmans_confidence,
        altmans_summary
        ) VALUES (?, ?, ?, ?, ?, ?, ?, ?)"

/-- `sql.count('?')` from the Python source: the number of parameter
placeholders in a SQL string. -/
def countPlaceholders (sql : String) : Nat :=
  sql.toList.count '?'

/-- The non-identity column names of the INSERT, in the order the values are
bound (this matches the column order of the CREATE TABLE statement after the
autoincrement `id`). -/
def insertColumns : List String :=
  ["altman_date", "altman_time", "altmans_sleep", "altmans_speech",
   "altmans_activity", "altmans_cheer", "altmans_confidence", "altmans_summary"]

/-- The `bind_values` list built by `insert_into_altman_table`. -/
def bind_values (altman_date altman_time : String)
    (altmans_sleep altmans_speech altmans_activity altmans_cheer
     altmans_confidence altmans_summary : Int) : List SqlValue :=
  [.s altman_date, .s altman_time, .i altmans_sleep, .i altmans_speech,
   .i altmans_activity, .i altmans_cheer, .i altmans_confidence,
   .i altmans_summary]

/-- Read the value stored in a named column of a row. -/
def columnValue (r : Row) (c : String) : Option SqlValue :=
  (insertColumns.zip r).lookup c

/-- The `try` body of `insert_into_altman_table`, for an arbitrary bind list
(the code builds the list internally; modelling it generically lets the
mismatch branch be exercised).  In source order: `prepare`, `addBindValue`
for each value (no effect on the table), then the placeholder-count check
(raising `ValueError` on mismatch), then `exec` — which appends the bound row
on success and logs the engine error on failure (`execOk` is the oracle for
`self.query.exec()`). -/
def insertBodyGeneric (sql : String) (binds : List SqlValue) (execOk : Bool)
    (table : Table) : Except PyError (Table × Log) :=
  if countPlaceholders sql ≠ binds.length then
    .error (.valueError "Mismatch: altman_table")
  else if execOk then
    .ok (table ++ [binds], [])
  else
    .ok (table, ["Error inserting data: altman_table"])

/-- The `except` clauses of `insert_into_altman_table`: `ValueError` and
`Exception` are each caught and logged; the operation returns the table
unchanged. -/
def insertHandle (table : Table) : PyError → Table × Log
  | .valueError _ => (table, ["ValueError altman_table"])
  | .exception _ => (table, ["Error during data insertion: altman_table"])

/-- The generic insert path (`prepare`/bind/check/`exec` wrapped in
`try`/`except`), for an arbitrary bind list. -/
def insertGenericCall (binds : List SqlValue) (execOk : Bool)
    (table : Table) : Table × Log :=
  match insertBodyGeneric insertSql binds execOk table with
  | .ok r => r
  | .error e => insertHandle table e

/-- `DataManager.insert_into_altman_table`: binds the eight arguments
positionally and runs the generic insert path. -/
def insert_into_altman_table (altman_date altman_time : String)
    (altmans_sleep altmans_speech altmans_activity altmans_cheer
     altmans_confidence altmans_summary : Int) (execOk : Bool)
    (table : Table) : Table × Log :=
  insertGenericCall
    (bind_values altman_date altman_time altmans_sleep altmans_speech
      altmans_activity altmans_cheer altmans_confidence altmans_summary)
    execOk table

/-! ### Event trace of the insert body (for the check-ordering claim) -/

/-- Observable events inside the `try` body of `insert_into_altman_table`. -/
inductive InsertEvent where
  | bindValue (v : SqlValue)
  | mismatchCheck (failed : Bool)
  | raiseValueError
  | execStmt
deriving Repr, DecidableEq

/-- The event trace of the `try` body of `insert_into_altman_table` in source
order: every `addBindValue` call first, then the placeholder-count check, then
either the `raise ValueError` or the `exec`. -/
def insertTrace (altman_date altman_time : String)
    (altmans_sleep altmans_speech altmans_activity altmans_cheer
     altmans_confidence altmans_summary : Int) : List InsertEvent :=
  let binds := bind_values altman_date altman_time altmans_sleep
    altmans_speech altmans_activity altmans_cheer altmans_confidence
    altmans_summary
  binds.map .bindValue ++
    [.mismatchCheck (countPlaceholders insertSql ≠ binds.length : Bool)] ++
    if countPlaceholders insertSql ≠ binds.length then [.raiseValueError]
    else [.execStmt]

/-! ### Form-to-record adapter: the summary computation -/

/-- `MainWindow.update_altmans_summary`: collects the values of the five scale
sliders that are strictly greater than 0 and writes their sum into the summary
widget (`sum` of the filtered comprehension, then `int(...)`, the identity on
integers). -/
def update_altmans_summary (altmans_sleep altmans_speech altmans_activity
    altmans_cheer altmans_confidence : Int) : Int :=
  (([altmans_sleep, altmans_speech, altmans_activity, altmans_cheer,
     altmans_confidence]).filter (fun v => 0 < v)).sum

/-- The specification's description of the summary, written independently of
the code: fold over the five values, adding each one that is strictly greater
than 0 and skipping the rest. -/
def specSummarySum (values : List Int) : Int :=
  values.foldl (fun acc v => if 0 < v then acc + v else acc) 0

/-! ### Store, file system and the remaining persistence operations -/

/-- A store: the tables of the SQLite file, as an association list from table
name to rows.  Copying the file (`shutil.copy`) preserves this value exactly,
so value equality models byte-identity. -/
structure Store where
  tables : List (String × Table)
deriving Repr, DecidableEq

/-- The store file freshly produced by opening (and closing) a QSQLITE
connection on a nonexistent path: a database file with no tables at all. -/
def emptyStore : Store := ⟨[]⟩

/-- The file-system state `initialize_database` acts on: the optional store
file at `db_path` (the bundled template found alongside the application) and
the optional store file at `target_db_path` (the user's home directory). -/
structure FileSystem where
  sourceFile : Option Store
  targetFile : Option Store
deriving Repr, DecidableEq

/-- Environment oracle for `initialize_database`: whether `shutil.copy` raises
an I/O error, and whether `db.open()` succeeds in creating the new file. -/
structure InitOracle where
  copyRaises : Bool
  openOk : Bool
deriving Repr, DecidableEq

/-- Run a `try` body against its `except` clauses: a caught error yields the
handler's fallback result, an uncaught one propagates to the caller. -/
def pyTry (body : Except PyError (α × Log))
    (handler : PyError → Option (α × Log)) : Except PyError (α × Log) :=
  match body with
  | .ok r => .ok r
  | .error e =>
      match handler e with
      | some r => .ok r
      | none => .error e

/-- A Python `except Exception` clause: it catches every error this model can
raise (`ValueError` is a subclass of `Exception`). -/
def catchException (fallback : α × Log) : PyError → Option (α × Log) :=
  fun _ => some fallback

/-- The `try` body of `initialize_database`: if no file exists at the target
path, either copy the template from the source path (when it exists; the copy
may raise) or create a fresh empty database file by opening a QSQLITE
connection (logging when the open fails, in which case no file appears). -/
def initialize_database_body (o : InitOracle) (fs : FileSystem) :
    Except PyError (FileSystem × Log) :=
  if fs.targetFile.isSome then .ok (fs, [])
  else
    match fs.sourceFile with
    | some s =>
        if o.copyRaises then .error (.exception "shutil.copy failed")
        else .ok ({ fs with targetFile := some s }, [])
    | none =>
        if o.openOk then .ok ({ fs with targetFile := some emptyStore }, [])
        else .ok (fs, ["Error: Unable to create database"])

/-- `initialize_database`: its body wrapped in `try`/`except Exception`, which
logs and suppresses any error. -/
def initialize_database_run (o : InitOracle) (fs : FileSystem) :
    Except PyError (FileSystem × Log) :=
  pyTry (initialize_database_body o fs)
    (catchException (fs, ["Error: Unable to create database"]))

/-- The file-system state after a run of `initialize_database` (on the
degenerate propagation case the state is returned unchanged). -/
def runStateFS (o : InitOracle) (fs : FileSystem) : FileSystem :=
  match initialize_database_run o fs with
  | .ok (fs', _) => fs'
  | .error _ => fs

/-- `DataManager.setup_altman_table`: CREATE TABLE IF NOT EXISTS altman_table.
`QSqlQuery.exec` reports failure by returning `False` (`execOk` is the engine
oracle); no exception is raised, and a failure is logged. -/
def setup_altman_table (execOk : Bool) (st : Store) : Store × Log :=
  if execOk then
    if (st.tables.lookup "altman_table").isSome then (st, [])
    else (⟨st.tables ++ [("altman_table", ([] : Table))]⟩, [])
  else (st, ["Error creating table: altman_table"])

/-- The state of the process-wide database connection. -/
structure ConnState where
  isOpen : Bool
deriving Repr, DecidableEq

/-- Environment oracle for `DataManager.__init__`: whether `db.open()`
succeeds and whether the CREATE TABLE `exec` succeeds. -/
structure DMOracle where
  openOk : Bool
  createOk : Bool
deriving Repr, DecidableEq

/-- The `try` body of `DataManager.__init__`: add the QSQLITE connection, set
the database name, open it (logging on failure and continuing), log
"DB INITIALIZING", then `setup_tables` → `setup_altman_table` (whose `exec`
cannot succeed on a connection that failed to open).  The Qt calls report
failure through booleans, so the body itself raises nothing. -/
def dataManagerInit_body (o : DMOracle) (st : Store) :
    Except PyError ((ConnState × Store) × Log) :=
  let openLog : Log := if o.openOk then [] else ["Error: Unable to open database"]
  let setupRes := setup_altman_table (o.openOk && o.createOk) st
  .ok ((⟨o.openOk⟩, setupRes.1), openLog ++ ["DB INITIALIZING"] ++ setupRes.2)

/-- `DataManager.__init__`: its body wrapped in `try`/`except Exception`. -/
def dataManagerInit_run (o : DMOracle) (st : Store) :
    Except PyError ((ConnState × Store) × Log) :=
  pyTry (dataManagerInit_body o st)
    (catchException ((⟨false⟩, st), ["Error: Unable to open database"]))

/-- `insert_into_altman_table` at the exception level: the `try` body with the
two `except` clauses (`ValueError`, then `Exception`) as its handler. -/
def insert_into_altman_table_run (binds : List SqlValue) (execOk : Bool)
    (table : Table) : Except PyError (Table × Log) :=
  pyTry (insertBodyGeneric insertSql binds execOk table)
    (fun e => some (insertHandle table e))

/-- The `try` body of `close_database`: log, and close the connection only if
it is open (`closeRaises` is the oracle for a failure inside `db.close()`,
which leaves the connection as it was). -/
def close_database_body (closeRaises : Bool) (c : ConnState) :
    Except PyError (ConnState × Log) :=
  if c.isOpen then
    if closeRaises then .error (.exception "close failed")
    else .ok (⟨false⟩,
      ["if database is open", "the database is closed successfully"])
  else .ok (c, ["if database is open"])

/-- `close_database`: its body wrapped in `try`/`except Exception`, which logs
the close failure and suppresses it. -/
def close_database_run (closeRaises : Bool) (c : ConnState) :
    Except PyError (ConnState × Log) :=
  pyTry (close_database_body closeRaises c)
    (catchException (c, ["Error closing database"]))

/-- The connection state after a run of `close_database`. -/
def runStateConn (closeRaises : Bool) (c : ConnState) : ConnState :=
  match close_database_run closeRaises c with
  | .ok (c', _) => c'
  | .error _ => c

/-- The log emitted by a run. -/
def runLog : Except PyError (α × Log) → Log
  | .ok (_, l) => l
  | .error _ => []

/-! ### Widget state of the form-to-record adapter -/

/-- The five scale sliders of the form. -/
inductive SliderId where
  | sleep | speech | activity | cheer | confidence
deriving Repr, DecidableEq

/-- The widgets the adapter touches: the five scale sliders, the summary
spin box, and whether the summary widget is enabled for user editing. -/
structure UIState where
  altmans_sleep : Int
  altmans_speech : Int
  altmans_activity : Int
  altmans_cheer : Int
  altmans_confidence : Int
  altmans_summary : Int
  summaryEnabled : Bool
deriving Repr, DecidableEq

/-- Read one scale slider's current value. -/
def sliderValue (s : UIState) : SliderId → Int
  | .sleep => s.altmans_sleep
  | .speech => s.altmans_speech
  | .activity => s.altmans_activity
  | .cheer => s.altmans_cheer
  | .confidence => s.altmans_confidence

/-- Store a value into one scale slider. -/
def writeSlider (s : UIState) : SliderId → Int → UIState
  | .sleep, v => { s with altmans_sleep := v }
  | .speech, v => { s with altmans_speech := v }
  | .activity, v => { s with altmans_activity := v }
  | .cheer, v => { s with altmans_cheer := v }
  | .confidence, v => { s with altmans_confidence := v }

/-- The clamp a Qt widget with `setRange(0, 5)` applies to any value stored
into it. -/
def clamp05 (v : Int) : Int := max 0 (min 5 v)

/-- The effect of the `update_altmans_summary` slot on the widgets: write the
computed sum into the summary spin box. -/
def runUpdateSummary (s : UIState) : UIState :=
  { s with altmans_summary := (update_altmans_summary s.altmans_sleep
      s.altmans_speech s.altmans_activity s.altmans_cheer
      s.altmans_confidence) }

/-- Widget defaults before `MainWindow.__init__` wires anything: Qt sliders
and spin boxes start at 0 and enabled. -/
def initWidgets : UIState :=
  { altmans_sleep := 0, altmans_speech := 0, altmans_activity := 0,
    altmans_cheer := 0, altmans_confidence := 0, altmans_summary := 0,
    summaryEnabled := true }

/-- The widget wiring at the tail of `altman_table_commit`: disable the
summary widget, then `setRange(0, 5)` on each of the five sliders (which
clamps the slider's current value into the range), and connect each slider's
`valueChanged` to `update_altmans_summary`. -/
def altman_table_commit_setup (s : UIState) : UIState :=
  let s := { s with summaryEnabled := false }
  { s with
    altmans_sleep := clamp05 s.altmans_sleep,
    altmans_speech := clamp05 s.altmans_speech,
    altmans_activity := clamp05 s.altmans_activity,
    altmans_cheer := clamp05 s.altmans_cheer,
    altmans_confidence := clamp05 s.altmans_confidence }

/-- The widget state at the end of `MainWindow.__init__`: the commit wiring
runs (via `commits`), then `update_altmans_summary()` is called explicitly as
the last statement of the constructor. -/
def initUIState : UIState :=
  runUpdateSummary (altman_table_commit_setup initWidgets)

/-- A user change of one scale slider to `v`: the widget clamps the value to
its [0, 5] range, and when the stored value actually changes the
`valueChanged` signal fires, running the connected `update_altmans_summary`
slot. -/
def setSlider (s : UIState) (id : SliderId) (v : Int) : UIState :=
  let w := clamp05 v
  if w = sliderValue s id then s
  else runUpdateSummary (writeSlider s id w)

/-- Run a sequence of slider-change events. -/
def runEvents (evs : List (SliderId × Int)) (s : UIState) : UIState :=
  evs.foldl (fun s ev => setSlider s ev.1 ev.2) s

/-- The invariant of C9: every slider in [0, 5], the summary widget disabled,
and the summary widget holding exactly the recomputed sum of the current
slider values (never stale). -/
def UIInv (s : UIState) : Prop :=
  (∀ id, 0 ≤ sliderValue s id ∧ sliderValue s id ≤ 5) ∧
  s.summaryEnabled = false ∧
  s.altmans_summary = update_altmans_summary s.altmans_sleep s.altmans_speech
    s.altmans_activity s.altmans_cheer s.altmans_confidence

/-! ### Whole-application events (for the connection-lifetime claim) -/

/-- Modelled from the spec: the commit adapter `add_altmans_data` (module
`database.altman_add_data`, not under src/) reads the current values of the
date, time, five scale widgets and the summary widget named by the mapping
passed in `altman_table_commit`, and forwards them positionally to the
supplied insert callback `insert_into_altman_table`. -/
def add_altmans_data (d t : String) (ui : UIState) (table : Table) : Table :=
  (insert_into_altman_table d t ui.altmans_sleep ui.altmans_speech
    ui.altmans_activity ui.altmans_cheer ui.altmans_confidence
    ui.altmans_summary true table).1

/-- Modelled from the spec: `delete_selected_rows` (module
`database.database_utility.delete_records`, not under src/) removes whole
selected rows from the table; here the selection is a row index. -/
def delete_selected_rows (idx : Nat) (table : Table) : Table :=
  table.eraseIdx idx

/-- The `QSettings` values `MainWindow` reads and writes. -/
structure Settings where
  geometry : Option String
  windowState : Option String
  lastPageIndex : Int
deriving Repr, DecidableEq

/-- The application state the `MainWindow` handlers act on: the process-wide
connection, the `altman_table` rows, the form widgets, the persisted
settings, and the current window geometry/state and page index. -/
structure AppState where
  conn : ConnState
  table : Table
  ui : UIState
  settings : Settings
  currentGeometry : String
  currentWindowState : String
  currentPageIndex : Int
deriving Repr, DecidableEq

/-- `MainWindow.save_state`: store the current geometry and window state into
the settings. -/
def save_state (s : AppState) : AppState :=
  { s with settings := { s.settings with
      geometry := some s.currentGeometry,
      windowState := some s.currentWindowState } }

/-- `MainWindow.closeEvent`: on shutdown, call `save_state` (inside
`try`/`except`) — nothing else. -/
def closeEvent (s : AppState) : AppState :=
  save_state s

/-- The discrete user events the `MainWindow` handlers in the source respond
to. -/
inductive AppEvent where
  | sliderChanged (id : SliderId) (v : Int)
  | commitTriggered (d t : String)
  | deleteTriggered (idx : Nat)
  | pageChanged (idx : Int)
  | inputViewTriggered
  | dataviewTriggered
  | minimizeTriggered
  | maximizeTriggered
  | windowClose
deriving Repr, DecidableEq

/-- One step of the application: the handler each event is wired to in
`MainWindow`.  Minimize/maximize only toggle window chrome, which this state
does not track. -/
def appStep (s : AppState) : AppEvent → AppState
  | .sliderChanged id v => { s with ui := setSlider s.ui id v }
  | .commitTriggered d t => { s with table := add_altmans_data d t s.ui s.table }
  | .deleteTriggered idx => { s with table := delete_selected_rows idx s.table }
  | .pageChanged idx =>
      { s with settings := { s.settings with lastPageIndex := idx } }
  | .inputViewTriggered => { s with currentPageIndex := 0 }
  | .dataviewTriggered => { s with currentPageIndex := 1 }
  | .minimizeTriggered => s
  | .maximizeTriggered => s
  | .windowClose => closeEvent s

/-- Run a sequence of application events. -/
def runApp (evs : List AppEvent) (s : AppState) : AppState :=
  evs.foldl appStep s

/-! ### Helper lemmas -/

theorem pyTry_catchException_isOk (body : Except PyError (α × Log))
    (fb : α × Log) : (pyTry body (catchException fb)).isOk = true := by
  cases body <;> simp [pyTry, catchException, Except.isOk, Except.toBool]

theorem insertSql_count : countPlaceholders insertSql = 8 := by decide

theorem specSummarySum_foldl (l : List Int) (a : Int) :
    l.foldl (fun acc v => if 0 < v then acc + v else acc) a
      = a + (l.filter (fun v => 0 < v)).sum := by
  induction l generalizing a with
  | nil => simp
  | cons v l ih =>
      by_cases hv : 0 < v <;>
        simp [List.foldl_cons, List.filter_cons, hv, ih, add_assoc]

/-! ## Claim theorems -/

/-- C1: for every tuple of five scale values each in [0, 5], the summary
computed by `update_altmans_summary` equals the sum of those values that are
strictly greater than 0 (values equal to 0 excluded). -/
theorem update_altmans_summary_spec
    (sl sp ac ch co : Int)
    (hsl : 0 ≤ sl ∧ sl ≤ 5) (hsp : 0 ≤ sp ∧ sp ≤ 5) (hac : 0 ≤ ac ∧ ac ≤ 5)
    (hch : 0 ≤ ch ∧ ch ≤ 5) (hco : 0 ≤ co ∧ co ≤ 5) :
    update_altmans_summary sl sp ac ch co = specSummarySum [sl, sp, ac, ch, co] := by
  rw [update_altmans_summary, specSummarySum, specSummarySum_foldl, zero_add]

/-- Witness for C1: at (5, 0, 3, 0, 2) the two computations agree and give 10;
at (0, 0, 0, 0, 0) the adapter gives 0. -/
theorem update_altmans_summary_spec_witness :
    update_altmans_summary 5 0 3 0 2 = specSummarySum [5, 0, 3, 0, 2] ∧
      update_altmans_summary 5 0 3 0 2 = 10 ∧
      update_altmans_summary 0 0 0 0 0 = 0 :=
  ⟨update_altmans_summary_spec 5 0 3 0 2 (by decide) (by decide) (by decide)
      (by decide) (by decide),
    by decide, by decide⟩

/-- C2: a call of `insert_into_altman_table` with its eight positional values
(matching the eight placeholders of the prepared statement) with a succeeding
`exec` appends exactly one row, raising the row count by exactly 1; a generic
call whose bind-value count does not match the placeholder count performs zero
writes (the table is unchanged), whether or not `exec` would succeed. -/
theorem insert_entry_count_behavior
    (d t : String) (sl sp ac ch co su : Int) (table : Table)
    (binds : List SqlValue) (hb : binds.length ≠ 8) :
    (bind_values d t sl sp ac ch co su).length = countPlaceholders insertSql ∧
    (insert_into_altman_table d t sl sp ac ch co su true table).1.length
        = table.length + 1 ∧
    (∀ execOk, (insertGenericCall binds execOk table).1 = table) := by
  refine ⟨by rw [insertSql_count]; rfl, ?_, ?_⟩
  · simp [insert_into_altman_table, insertGenericCall, insertBodyGeneric,
      insertSql_count, bind_values]
  · intro execOk
    simp [insertGenericCall, insertBodyGeneric, insertSql_count, Ne.symm hb,
      insertHandle]

/-- Witness for C2: a matched call on the empty table yields row count 1, and
a 3-value mismatched call writes nothing. -/
theorem insert_entry_count_behavior_witness :
    (insert_into_altman_table "2024-01-01" "12:00" 1 2 3 4 5 15 true []).1.length
        = 0 + 1 ∧
    (insertGenericCall [.i 1, .i 2, .i 3] true []).1 = [] := by
  have h := insert_entry_count_behavior "2024-01-01" "12:00" 1 2 3 4 5 15 []
    [.i 1, .i 2, .i 3] (by decide)
  exact ⟨h.2.1, h.2.2 true⟩

/-- C3: after a successful `insert_into_altman_table` call, reading the full
table yields a row whose same-named columns hold exactly the inserted
arguments. -/
theorem insert_entry_round_trip
    (d t : String) (sl sp ac ch co su : Int) (table : Table) :
    ∃ r ∈ (insert_into_altman_table d t sl sp ac ch co su true table).1,
      columnValue r "altman_date" = some (.s d) ∧
      columnValue r "altman_time" = some (.s t) ∧
      columnValue r "altmans_sleep" = some (.i sl) ∧
      columnValue r "altmans_speech" = some (.i sp) ∧
      columnValue r "altmans_activity" = some (.i ac) ∧
      columnValue r "altmans_cheer" = some (.i ch) ∧
      columnValue r "altmans_confidence" = some (.i co) ∧
      columnValue r "altmans_summary" = some (.i su) := by
  refine ⟨bind_values d t sl sp ac ch co su, ?_, ?_⟩
  · simp [insert_into_altman_table, insertGenericCall, insertBodyGeneric,
      insertSql_count, bind_values]
  · simp [columnValue, insertColumns, bind_values, List.lookup]

/-- C7: for every call of `insert_into_altman_table`, the number of
placeholders in the SQL equals the number of bound values (both 8), the
event trace of the body performs the mismatch check only after all eight
values are bound and the check comes out false, and the `raise ValueError`
branch never appears in the trace (it is unreachable). -/
theorem insert_mismatch_check_unreachable
    (d t : String) (sl sp ac ch co su : Int) :
    countPlaceholders insertSql = (bind_values d t sl sp ac ch co su).length ∧
    insertTrace d t sl sp ac ch co su =
      (bind_values d t sl sp ac ch co su).map .bindValue ++
        [.mismatchCheck false, .execStmt] ∧
    InsertEvent.raiseValueError ∉ insertTrace d t sl sp ac ch co su := by
  refine ⟨by rw [insertSql_count]; rfl, ?_, ?_⟩ <;>
    simp [insertTrace, insertSql_count, bind_values]

/-- Counterexample to C4 as stated: on a fresh file system with no file at the
target path and no template at the source path, `initialize_database` puts the
fresh empty store at the target, and that store does not contain the
`altman_table` (no table exists until `DataManager.setup_altman_table` runs
later, at `DataManager` construction). -/
theorem ensure_store_fresh_counterexample :
    initialize_database_run ⟨false, true⟩ ⟨none, none⟩ =
      .ok (⟨none, some emptyStore⟩, []) ∧
    emptyStore.tables.lookup "altman_table" = none := by
  constructor
  · rfl
  · rfl

/-- C4 amended: on a fresh state with no store file at the target path,
`initialize_database` copies the template when one exists at the source path
(the target becomes exactly the template, i.e. byte-identical); otherwise it
creates an empty store with no tables, and the expected `altman_table` with
zero rows exists only after the subsequent schema-setup step
`setup_altman_table` runs. -/
theorem ensure_store_fresh (fs : FileSystem) (o : InitOracle)
    (hfresh : fs.targetFile = none) :
    (∀ s, fs.sourceFile = some s → o.copyRaises = false →
      initialize_database_run o fs =
        .ok ({ fs with targetFile := some s }, [])) ∧
    (fs.sourceFile = none → o.openOk = true →
      initialize_database_run o fs =
        .ok ({ fs with targetFile := some emptyStore }, []) ∧
      (setup_altman_table true emptyStore).1.tables.lookup "altman_table"
        = some ([] : Table)) := by
  constructor
  · intro s hs hc
    simp [initialize_database_run, initialize_database_body, pyTry, hfresh,
      hs, hc]
  · intro hs ho
    refine ⟨?_, by rfl⟩
    simp [initialize_database_run, initialize_database_body, pyTry, hfresh,
      hs, ho]

/-- Witness for C4 amended: with a template store holding one table the
target becomes that very store; with no template the target becomes the empty
store and the schema setup then yields an empty `altman_table`. -/
theorem ensure_store_fresh_witness :
    initialize_database_run ⟨false, true⟩
        ⟨some ⟨[("altman_table", ([[SqlValue.i 1]] : Table))]⟩, none⟩ =
      .ok (⟨some ⟨[("altman_table", ([[SqlValue.i 1]] : Table))]⟩,
        some ⟨[("altman_table", ([[SqlValue.i 1]] : Table))]⟩⟩, []) ∧
    (initialize_database_run ⟨false, true⟩ ⟨none, none⟩ =
        .ok (⟨none, some emptyStore⟩, []) ∧
      (setup_altman_table true emptyStore).1.tables.lookup "altman_table"
        = some ([] : Table)) :=
  ⟨(ensure_store_fresh ⟨some ⟨[("altman_table", [[SqlValue.i 1]])]⟩, none⟩
        ⟨false, true⟩ rfl).1 _ rfl rfl,
    (ensure_store_fresh ⟨none, none⟩ ⟨false, true⟩ rfl).2 rfl rfl⟩

/-- C5: when a store file already exists at the target path,
`initialize_database` returns the file system unchanged, logging nothing and
raising nothing, whatever the environment does; and under any fixed
environment, running it twice in succession leaves the same file system as
running it once. -/
theorem ensure_store_idempotent (fs : FileSystem) (o : InitOracle) :
    (fs.targetFile.isSome = true →
      initialize_database_run o fs = .ok (fs, [])) ∧
    runStateFS o (runStateFS o fs) = runStateFS o fs := by
  constructor
  · intro hsome
    simp [initialize_database_run, initialize_database_body, pyTry, hsome]
  · rcases fs with ⟨src, tgt⟩
    cases tgt with
    | some s =>
        simp [runStateFS, initialize_database_run, initialize_database_body,
          pyTry]
    | none =>
        rcases o with ⟨cr, ok⟩
        cases src <;> cases cr <;> cases ok <;>
          simp [runStateFS, initialize_database_run, initialize_database_body,
            pyTry, catchException]

/-- Witness for C5: a file system whose target already holds the empty store
is returned unchanged with an empty log. -/
theorem ensure_store_idempotent_witness :
    initialize_database_run ⟨false, true⟩ ⟨none, some emptyStore⟩ =
      .ok (⟨none, some emptyStore⟩, []) ∧
    runStateFS ⟨false, true⟩ (runStateFS ⟨false, true⟩ ⟨none, none⟩) =
      runStateFS ⟨false, true⟩ ⟨none, none⟩ :=
  ⟨(ensure_store_idempotent ⟨none, some emptyStore⟩ ⟨false, true⟩).1 rfl,
    (ensure_store_idempotent ⟨none, none⟩ ⟨false, true⟩).2⟩

/-- C6: every persistence operation suppresses every failure of its kind at
the point it occurs: `initialize_database` (store creation), `DataManager`
construction (open and schema creation), `insert_into_altman_table` and
`close_database` never propagate an error to their caller, for every store
state and every behavior of the environment; and each induced failure —
creation failure, schema-creation failure, parameter-count mismatch,
statement-execution failure, close failure — leaves a log entry. -/
theorem persistence_errors_suppressed :
    (∀ o fs, (initialize_database_run o fs).isOk = true) ∧
    (∀ o st, (dataManagerInit_run o st).isOk = true) ∧
    (∀ binds execOk table,
      (insert_into_altman_table_run binds execOk table).isOk = true) ∧
    (∀ r c, (close_database_run r c).isOk = true) ∧
    (∀ fs, fs.targetFile = none → fs.sourceFile = none →
      runLog (initialize_database_run ⟨false, false⟩ fs) ≠ []) ∧
    (∀ st, (setup_altman_table false st).2 ≠ []) ∧
    (∀ binds table, binds.length ≠ 8 →
      runLog (insert_into_altman_table_run binds true table) ≠ []) ∧
    (∀ binds table, binds.length = 8 →
      runLog (insert_into_altman_table_run binds false table) ≠ []) ∧
    (∀ c, c.isOpen = true → runLog (close_database_run true c) ≠ []) := by
  refine ⟨fun o fs => pyTry_catchException_isOk _ _,
    fun o st => pyTry_catchException_isOk _ _,
    fun binds execOk table => ?_,
    fun r c => pyTry_catchException_isOk _ _, ?_, ?_, ?_, ?_, ?_⟩
  · cases h : insertBodyGeneric insertSql binds execOk table <;>
      simp [insert_into_altman_table_run, pyTry, h, Except.isOk,
        Except.toBool]
  · intro fs h1 h2
    simp [initialize_database_run, initialize_database_body, pyTry, h1, h2,
      runLog]
  · intro st
    simp [setup_altman_table]
  · intro binds table hb
    simp [insert_into_altman_table_run, insertBodyGeneric, pyTry,
      insertSql_count, Ne.symm hb, insertHandle, runLog]
  · intro binds table hb
    simp [insert_into_altman_table_run, insertBodyGeneric, pyTry,
      insertSql_count, hb, runLog]
  · intro c hc
    simp [close_database_run, close_database_body, pyTry, hc, catchException,
      runLog]

/-- Witness for C6: concrete runs of every operation with failing
environments return without error, and each failure kind is logged. -/
theorem persistence_errors_suppressed_witness :
    (initialize_database_run ⟨true, false⟩ ⟨some emptyStore, none⟩).isOk
        = true ∧
    (dataManagerInit_run ⟨false, false⟩ emptyStore).isOk = true ∧
    (insert_into_altman_table_run [] false []).isOk = true ∧
    (close_database_run true ⟨true⟩).isOk = true ∧
    runLog (initialize_database_run ⟨false, false⟩ ⟨none, none⟩) ≠ [] ∧
    (setup_altman_table false emptyStore).2 ≠ [] ∧
    runLog (insert_into_altman_table_run [] true []) ≠ [] ∧
    runLog (insert_into_altman_table_run
      (bind_values "d" "t" 0 0 0 0 0 0) false []) ≠ [] ∧
    runLog (close_database_run true ⟨true⟩) ≠ [] :=
  ⟨persistence_errors_suppressed.1 ⟨true, false⟩ ⟨some emptyStore, none⟩,
    persistence_errors_suppressed.2.1 ⟨false, false⟩ emptyStore,
    persistence_errors_suppressed.2.2.1 [] false [],
    persistence_errors_suppressed.2.2.2.1 true ⟨true⟩,
    persistence_errors_suppressed.2.2.2.2.1 ⟨none, none⟩ rfl rfl,
    persistence_errors_suppressed.2.2.2.2.2.1 emptyStore,
    persistence_errors_suppressed.2.2.2.2.2.2.1 [] [] (by decide),
    persistence_errors_suppressed.2.2.2.2.2.2.2.1 _ [] (by decide),
    persistence_errors_suppressed.2.2.2.2.2.2.2.2 ⟨true⟩ rfl⟩

/-- C8: `close_database` is idempotent and total: on a closed connection it
does nothing but log; no call ever propagates an error, including a second
call after a first; in the failure-free environment, closing twice leaves the
same connection state as closing once; and a failure inside `db.close()` is
caught and logged, never propagated. -/
theorem close_database_spec (c : ConnState) (r r' : Bool) :
    (c.isOpen = false →
      close_database_run r c = .ok (c, ["if database is open"])) ∧
    (close_database_run r c).isOk = true ∧
    (close_database_run r' (runStateConn r c)).isOk = true ∧
    runStateConn false (runStateConn false c) = runStateConn false c ∧
    (c.isOpen = true →
      runLog (close_database_run true c) = ["Error closing database"]) := by
  refine ⟨?_, pyTry_catchException_isOk _ _, pyTry_catchException_isOk _ _,
    ?_, ?_⟩
  · intro hc
    simp [close_database_run, close_database_body, pyTry, hc]
  · rcases c with ⟨o⟩
    cases o <;>
      simp [runStateConn, close_database_run, close_database_body, pyTry]
  · intro hc
    simp [close_database_run, close_database_body, pyTry, hc, catchException,
      runLog]

/-- Witness for C8: on the closed connection the run is the logged no-op; the
open connection closes idempotently and a failing close is logged. -/
theorem close_database_spec_witness :
    close_database_run false ⟨false⟩ = .ok (⟨false⟩, ["if database is open"]) ∧
    (close_database_run false ⟨true⟩).isOk = true ∧
    runStateConn false (runStateConn false ⟨true⟩) = runStateConn false ⟨true⟩ ∧
    runLog (close_database_run true ⟨true⟩) = ["Error closing database"] :=
  ⟨(close_database_spec ⟨false⟩ false false).1 rfl,
    (close_database_spec ⟨true⟩ false false).2.1,
    (close_database_spec ⟨true⟩ false false).2.2.2.1,
    (close_database_spec ⟨true⟩ false false).2.2.2.2 rfl⟩

theorem clamp05_bounds (v : Int) : 0 ≤ clamp05 v ∧ clamp05 v ≤ 5 :=
  ⟨le_max_left 0 _, max_le (by norm_num) (min_le_left 5 v)⟩

theorem uiInv_init : UIInv initUIState := by
  refine ⟨fun id => ?_, rfl, rfl⟩
  cases id <;> decide

theorem uiInv_setSlider (s : UIState) (id : SliderId) (v : Int)
    (h : UIInv s) : UIInv (setSlider s id v) := by
  obtain ⟨hb, he, hs⟩ := h
  by_cases hw : clamp05 v = sliderValue s id
  · have hset : setSlider s id v = s := by simp [setSlider, hw]
    rw [hset]
    exact ⟨hb, he, hs⟩
  · have hset : setSlider s id v
        = runUpdateSummary (writeSlider s id (clamp05 v)) := by
      simp [setSlider, hw]
    rw [hset]
    refine ⟨fun id' => ?_, ?_, ?_⟩
    · cases id <;> cases id' <;>
        simp [runUpdateSummary, writeSlider, sliderValue] <;>
        first
          | exact clamp05_bounds v
          | exact hb SliderId.sleep
          | exact hb SliderId.speech
          | exact hb SliderId.activity
          | exact hb SliderId.cheer
          | exact hb SliderId.confidence
    · cases id <;> simp [runUpdateSummary, writeSlider, he]
    · cases id <;> simp [runUpdateSummary, writeSlider]

theorem uiInv_runEvents (evs : List (SliderId × Int)) (s : UIState)
    (h : UIInv s) : UIInv (runEvents evs s) := by
  induction evs generalizing s with
  | nil => exact h
  | cons ev evs ih =>
      exact ih (setSlider s ev.1 ev.2) (uiInv_setSlider s ev.1 ev.2 h)

/-- C9: from construction onward, after any sequence of slider changes, each
of the five scale widgets holds a value clamped to [0, 5], the summary widget
is disabled, and the summary widget holds exactly the sum the
`update_altmans_summary` slot recomputes from the current slider values — so
the summary a commit reads is never stale. -/
theorem adapter_widget_invariants (evs : List (SliderId × Int)) :
    (∀ id, 0 ≤ sliderValue (runEvents evs initUIState) id ∧
      sliderValue (runEvents evs initUIState) id ≤ 5) ∧
    (runEvents evs initUIState).summaryEnabled = false ∧
    (runEvents evs initUIState).altmans_summary =
      update_altmans_summary
        (runEvents evs initUIState).altmans_sleep
        (runEvents evs initUIState).altmans_speech
        (runEvents evs initUIState).altmans_activity
        (runEvents evs initUIState).altmans_cheer
        (runEvents evs initUIState).altmans_confidence :=
  uiInv_runEvents evs initUIState uiInv_init

theorem appStep_conn (s : AppState) (ev : AppEvent) :
    (appStep s ev).conn = s.conn := by
  cases ev <;> rfl

/-- C10: no code in the source ever closes the database connection: every
`MainWindow` handler — over any sequence of application events — leaves the
connection state exactly as it was, `closeEvent` only writes the saved
geometry and window state into the settings and changes nothing else, and yet
`close_database` (the module-level function outside the `DataManager` class,
which no handler invokes) would close an open connection if it were ever
called. -/
theorem connection_never_closed (evs : List AppEvent) (s : AppState) :
    (runApp evs s).conn = s.conn ∧
    closeEvent s = { s with settings :=
      { geometry := some s.currentGeometry,
        windowState := some s.currentWindowState,
        lastPageIndex := s.settings.lastPageIndex } } ∧
    runStateConn false ⟨true⟩ = ⟨false⟩ := by
  refine ⟨?_, rfl, rfl⟩
  induction evs generalizing s with
  | nil => rfl
  | cons ev evs ih =>
      show (runApp evs (appStep s ev)).conn = s.conn
      rw [ih (appStep s ev), appStep_conn]

end AltmansExam
